import Mathlib

/-!
Shallow embedding of `src/tool-handlers/workflow-tools.ts` from the
mcp-n8n-builder repository.

Modelling conventions:
* JavaScript strings are Lean `String`s; `String.includes` becomes
  `strContains`, `Array.join` becomes `joinSep`.
* The external collaborators named by the spec (process configuration,
  the n8n API client, the node validator, the Zod schema parsers, the
  static workflow-composition guide and the locale date renderer) are
  passed to each handler as explicit parameters; an API-client method
  or a schema parse that can throw is an `Except JsError` value.
* A thrown `McpError` (the protocol-level invalid-params fault) is the
  `Except.error` branch of the handler result; handlers that cannot
  throw return a plain pair.
* Every handler result carries the ordered list of API-client methods
  it actually invoked (`List ApiCall`), so "this call is never made"
  properties are statable.
* JavaScript truthiness tests (`!args.id`, `verbosity || config...`,
  `error.message || ...`) are modelled on `Option String` values where
  `none` plays undefined and the empty string is the falsy string.
-/

namespace WorkflowTools

/-- Boolean infix test on character lists, by scanning suffixes. -/
def listInfixOf (pat : List Char) : List Char → Bool
  | [] => pat.isEmpty
  | a :: rest => pat.isPrefixOf (a :: rest) || listInfixOf pat rest

/-- Boolean substring test, the model of JavaScript `String.includes`. -/
def strContains (s pat : String) : Bool := listInfixOf pat.data s.data

/-- Boolean prefix test on strings. -/
def strStartsWith (s p : String) : Bool := p.data.isPrefixOf s.data

/-- ASCII case folding of a string, the model of JavaScript
`toLowerCase` on the ASCII node-type identifiers. -/
def strToLower (s : String) : String := String.mk (s.data.map Char.toLower)

/-- Model of JavaScript `Array.prototype.join(sep)` on a list of strings. -/
def joinSep (sep : String) : List String → String
  | [] => ""
  | [x] => x
  | x :: y :: xs => x ++ sep ++ joinSep sep (y :: xs)

/-- Indentation of `2 * n` spaces used by `JSON.stringify(v, null, 2)`. -/
def spaces (n : Nat) : String := String.mk (List.replicate (2 * n) ' ')

/-- Lowercase hexadecimal digit. -/
def hexDigit (n : Nat) : Char :=
  if n < 10 then Char.ofNat (48 + n) else Char.ofNat (87 + n)

/-- Escape of one character inside a JSON string literal, following
`JSON.stringify`. -/
def jsonEscapeChar (c : Char) : String :=
  if c = '"' then "\\\""
  else if c = '\\' then "\\\\"
  else if c = '\n' then "\\n"
  else if c = '\r' then "\\r"
  else if c = '\t' then "\\t"
  else if c = Char.ofNat 8 then "\\b"
  else if c = Char.ofNat 12 then "\\f"
  else if c.toNat < 32 then
    "\\u00" ++ String.mk [hexDigit (c.toNat / 16), hexDigit (c.toNat % 16)]
  else String.singleton c

/-- Quoted JSON string literal for `s`. -/
def jsonQuote (s : String) : String :=
  "\"" ++ String.join (s.data.map jsonEscapeChar) ++ "\""

/-- Untyped JSON values, the model of the dynamic values the handlers pass
around (API payloads, the `details` argument of `format_output`). Numbers
are modelled as integers; no claim depends on float rendering. -/
inductive Json where
  | null : Json
  | bool (b : Bool) : Json
  | num (n : Int) : Json
  | str (s : String) : Json
  | arr (elems : List Json) : Json
  | obj (fields : List (String × Json)) : Json

/-- JavaScript truthiness of a JSON value. -/
def Json.truthy : Json → Bool
  | .null => false
  | .bool b => b
  | .num n => decide (n ≠ 0)
  | .str s => decide (s ≠ "")
  | .arr _ => true
  | .obj _ => true

mutual

/-- Model of `JSON.stringify(v, null, 2)` at nesting depth `ind`. -/
def Json.stringifyAt : Nat → Json → String
  | _, .null => "null"
  | _, .bool true => "true"
  | _, .bool false => "false"
  | _, .num n => toString n
  | _, .str s => jsonQuote s
  | _, .arr [] => "[]"
  | ind, .arr (x :: xs) =>
    "[\n" ++ Json.stringifyElems (ind + 1) (x :: xs) ++ "\n" ++ spaces ind ++ "]"
  | _, .obj [] => "\x7b\x7d"
  | ind, .obj (kv :: kvs) =>
    "\x7b\n" ++ Json.stringifyFields (ind + 1) (kv :: kvs) ++ "\n" ++ spaces ind ++ "\x7d"

/-- Array elements of `JSON.stringify`, each on its own indented line,
joined by commas. -/
def Json.stringifyElems : Nat → List Json → String
  | _, [] => ""
  | ind, [x] => spaces ind ++ Json.stringifyAt ind x
  | ind, x :: y :: xs =>
    spaces ind ++ Json.stringifyAt ind x ++ ",\n" ++ Json.stringifyElems ind (y :: xs)

/-- Object fields of `JSON.stringify`, each on its own indented line,
joined by commas. -/
def Json.stringifyFields : Nat → List (String × Json) → String
  | _, [] => ""
  | ind, [kv] => spaces ind ++ jsonQuote kv.1 ++ ": " ++ Json.stringifyAt ind kv.2
  | ind, kv :: kw :: kvs =>
    spaces ind ++ jsonQuote kv.1 ++ ": " ++ Json.stringifyAt ind kv.2 ++ ",\n" ++
      Json.stringifyFields ind (kw :: kvs)

end

/-- Top-level `JSON.stringify(v, null, 2)`. -/
def Json.stringify (v : Json) : String := Json.stringifyAt 0 v

/-- Workflow tag, only its `name` is used (for display). -/
structure Tag where
  name : String
deriving DecidableEq, Repr

/-- Workflow node; the handlers read only its `type` identifier. -/
structure Node where
  type : String
deriving DecidableEq, Repr

/-- Workflow record as returned by the remote API. The typed fields are
the projections the handlers read; `raw` is the full JSON object the API
returned, which is what the handlers pass to `format_output` as the
`details` value. `created_at` and `updated_at` keep the raw timestamp
value that JavaScript feeds to `new Date(...)`. -/
structure Workflow where
  id : String
  name : String
  active : Bool
  created_at : String
  updated_at : String
  nodes : List Node
  tags : Option (List Tag)
  raw : Json

/-- Workflow payload sent to the API on create/update, as produced by a
schema parse; the handlers read only its `nodes`. -/
structure WfPayload where
  nodes : List Node
deriving DecidableEq, Repr

/-- Result of `CreateWorkflowInputSchema.parse(args)`: the workflow
payload plus the `activate` flag. -/
structure CreateInput where
  workflow : WfPayload
  activate : Bool
deriving DecidableEq, Repr

/-- Report of the node validator for one invalid node: the offending
type identifier and an optional "did you mean" suggestion. -/
structure InvalidNodeReport where
  node_type : String
  suggestion : Option String
deriving DecidableEq, Repr

/-- One item of a tool response's `content` array. -/
structure ContentItem where
  type : String
  text : String
deriving DecidableEq, Repr

/-- Uniform tool-response envelope. `isError = none` models the absent
field of the JavaScript object on success paths. -/
structure ToolResponse where
  content : List ContentItem
  isError : Option Bool
deriving DecidableEq, Repr

/-- JavaScript error value as the handlers inspect it: the optional
`name` (used for the `ZodError` check), the optional `message`, and
`String(error)` (the string coercion used as fallback). -/
structure JsError where
  name : Option String
  message : Option String
  asString : String
deriving DecidableEq, Repr

/-- Model of `error.message || dflt`: `undefined` and the empty string
are falsy and fall through to the default. -/
def msgOr (e : JsError) (dflt : String) : String :=
  match e.message with
  | some m => if m = "" then dflt else m
  | none => dflt

/-- Model of `error.message || String(error)`, the text used by the
catch-all error envelopes. -/
def errText (e : JsError) : String := msgOr e e.asString

/-- Static workflow-composition guide: a fixed mapping of guidance
blocks, looked up verbatim (external collaborator). -/
structure WorkflowCompositionGuide where
  node_categories : String
  common_patterns : String
  core_principles : String
  workflow_creation_process : String
deriving DecidableEq, Repr

/-- Protocol error codes; only `InvalidParams` is used here. -/
inductive ErrorCode where
  | InvalidParams : ErrorCode
deriving DecidableEq, Repr

/-- Protocol-level fault raised past the handler boundary. -/
structure McpError where
  code : ErrorCode
  message : String
deriving DecidableEq, Repr

/-- One awaited invocation of an API-client method, recorded in the
order the handler performs it. -/
inductive ApiCall where
  | listCall : ApiCall
  | createCall (workflow : WfPayload) (activate : Bool) : ApiCall
  | getCall (id : String) : ApiCall
  | updateCall (id : String) (workflow : WfPayload) : ApiCall
  | deleteCall (id : String) : ApiCall
  | activateCall (id : String) : ApiCall
  | deactivateCall (id : String) : ApiCall
deriving DecidableEq, Repr

/-- Behaviour of the external API client for one handler invocation:
each method is the value its awaited call settles to, `Except.error`
when the promise rejects. `list_workflows` may also resolve to a nullish
value (`none`), which the handler guards with `!workflows`. -/
structure N8nApiClient where
  list_workflows : Except JsError (Option (List Workflow))
  create_workflow : WfPayload → Bool → Except JsError Workflow
  get_workflow : String → Except JsError Workflow
  update_workflow : String → WfPayload → Except JsError Workflow
  delete_workflow : String → Except JsError Json
  activate_workflow : String → Except JsError Workflow
  deactivate_workflow : String → Except JsError Workflow

/-- JavaScript truthiness of an optional string field (`args.id`):
`undefined` and the empty string are falsy. -/
def truthy : Option String → Bool
  | none => false
  | some s => decide (s ≠ "")

/-- JavaScript truthiness of an optional JSON field (`args.workflow`). -/
def optJsonTruthy : Option Json → Bool
  | none => false
  | some j => j.truthy

/-- Model of `wf.tags?.map(tag => tag.name).join(', ') || 'None'`. -/
def tagsDisplay : Option (List Tag) → String
  | none => "None"
  | some ts =>
    let joined := joinSep ", " (ts.map (fun t => t.name))
    if joined = "" then "None" else joined

/-- Arguments of the list handler that this file inspects: only the
optional `verbosity` (the filter fields are forwarded opaquely). -/
structure ListArgs where
  verbosity : Option String
deriving DecidableEq, Repr

/-- Arguments of the get handler: optional `id` and `verbosity`. -/
structure GetArgs where
  id : Option String
  verbosity : Option String
deriving DecidableEq, Repr

/-- Arguments of the delete/activate/deactivate handlers. -/
structure IdArgs where
  id : Option String
deriving DecidableEq, Repr

/-- Arguments of the update handler: optional `id` and the raw
`workflow` value to be schema-parsed. -/
structure UpdateArgs where
  id : Option String
  workflow : Option Json

/-- Helper function to handle validation errors with helpful guidance
(`handle_validation_error` in the source). -/
def handle_validation_error (guide : WorkflowCompositionGuide) (error : JsError) :
    ToolResponse :=
  let error_message := msgOr error "Validation error"
  let guidance :=
    if strContains error_message "nodes" then guide.node_categories
    else if strContains error_message "connections" then guide.common_patterns
    else if strContains error_message "trigger" then guide.core_principles
    else guide.workflow_creation_process
  { content := [⟨"text",
      "Validation error: " ++ error_message ++
        "\n\nHere\x27s some guidance that might help:\n\n" ++ guidance⟩],
    isError := some true }

/-- Helper function to format output based on verbosity setting
(`format_output` in the source). `cfg` is the process-wide
`config.output_verbosity`; the fallback `verbosity || config...` is a
truthiness test, so an empty-string argument also falls back. -/
def format_output (cfg : String) (summary : String) (details : Json)
    (verbosity : Option String) : String :=
  let output_verbosity :=
    match verbosity with
    | some v => if v = "" then cfg else v
    | none => cfg
  if output_verbosity = "full" then
    summary ++ "\n\nFull details:\n" ++ Json.stringify details
  else
    summary

/-- One numbered block of the list summary, for the workflow at (zero
based) `index`. -/
def workflowListEntry (locale : String → String) (index : Nat) (wf : Workflow) :
    String :=
  let status := if wf.active then "Active" else "Inactive"
  let tags := tagsDisplay wf.tags
  toString (index + 1) ++ ". \"" ++ wf.name ++ "\" (ID: " ++ wf.id ++
    ")\n   Status: " ++ status ++
    "\n   Created: " ++ locale wf.created_at ++
    "\n   Tags: " ++ tags

/-- Handles the list_workflows tool. `locale` models
`x => new Date(x).toLocaleString()`. -/
def handle_list_workflows (cfg : String) (locale : String → String)
    (api_client : N8nApiClient) (args : ListArgs) :
    ToolResponse × List ApiCall :=
  match api_client.list_workflows with
  | .error error =>
    ({ content := [⟨"text", "Error listing workflows: " ++ errText error⟩],
       isError := some true }, [.listCall])
  | .ok wopt =>
    match wopt with
    | none =>
      ({ content := [⟨"text", "No workflows found."⟩], isError := none },
       [.listCall])
    | some workflows =>
      if workflows.length = 0 then
        ({ content := [⟨"text", "No workflows found."⟩], isError := none },
         [.listCall])
      else
        let active_count := (workflows.filter (fun wf => wf.active)).length
        let inactive_count := workflows.length - active_count
        let summary :=
          "Found " ++ toString workflows.length ++ " workflow" ++
            (if workflows.length ≠ 1 then "s" else "") ++
            " (" ++ toString active_count ++ " active, " ++
            toString inactive_count ++ " inactive):\n\n"
        let workflow_list :=
          joinSep "\n\n"
            (workflows.enum.map (fun p => workflowListEntry locale p.1 p.2))
        ({ content := [⟨"text",
            format_output cfg (summary ++ workflow_list)
              (Json.arr (workflows.map (fun wf => wf.raw))) args.verbosity⟩],
           isError := none }, [.listCall])

/-- Catch block shared in shape by create and update: a `ZodError` goes
through `handle_validation_error`, anything else becomes the generic
catch-all envelope whose text starts with the given prefix
("Error creating workflow: " respectively "Error updating workflow: "). -/
def schema_catch (guide : WorkflowCompositionGuide) (prefixText : String)
    (error : JsError) : ToolResponse :=
  if error.name = some "ZodError" then handle_validation_error guide error
  else
    { content := [⟨"text", prefixText ++ errText error⟩],
      isError := some true }

/-- Itemized line for one invalid node, with its optional suggestion.
The source tests `node.suggestion ? ... : ...` by JavaScript truthiness,
so a missing and an empty-string suggestion both fall back to
"No similar nodes found.". -/
def invalidNodeLine (node : InvalidNodeReport) : String :=
  let suggestion :=
    match node.suggestion with
    | some s =>
      if s = "" then "No similar nodes found."
      else "Did you mean \x27" ++ s ++ "\x27?"
    | none => "No similar nodes found."
  "- \x27" ++ node.node_type ++ "\x27: Not a valid n8n node. " ++ suggestion

/-- Error response of `handle_create_workflow` for a non-empty
invalid-node report list (the source duplicates this block in create
and update with only the verb differing). -/
def create_invalid_nodes_response (guide : WorkflowCompositionGuide)
    (invalid_nodes : List InvalidNodeReport) : ToolResponse :=
  let error_messages := invalid_nodes.map invalidNodeLine
  let node_categories := guide.node_categories
  { content := [⟨"text",
      "Workflow contains invalid node types:\n" ++ joinSep "\n" error_messages ++
        "\n\nPlease correct these node types before creating the workflow.\n\n" ++
        "Here are the available node categories for reference:\n" ++
        node_categories⟩],
    isError := some true }

/-- Error response of `handle_update_workflow` for a non-empty
invalid-node report list. -/
def update_invalid_nodes_response (guide : WorkflowCompositionGuide)
    (invalid_nodes : List InvalidNodeReport) : ToolResponse :=
  let error_messages := invalid_nodes.map invalidNodeLine
  let node_categories := guide.node_categories
  { content := [⟨"text",
      "Workflow contains invalid node types:\n" ++ joinSep "\n" error_messages ++
        "\n\nPlease correct these node types before updating the workflow.\n\n" ++
        "Here are the available node categories for reference:\n" ++
        node_categories⟩],
    isError := some true }

/-- Handles the create_workflow tool. `validate_workflow_nodes` is the
external node validator; `parse_result` is the outcome of
`CreateWorkflowInputSchema.parse(args)` (`Except.error` when the parse
throws). -/
def handle_create_workflow (guide : WorkflowCompositionGuide)
    (api_client : N8nApiClient)
    (validate_workflow_nodes : List Node → List InvalidNodeReport)
    (parse_result : Except JsError CreateInput) :
    ToolResponse × List ApiCall :=
  match parse_result with
  | .error error => (schema_catch guide "Error creating workflow: " error, [])
  | .ok parsed_input =>
    let invalid_nodes := validate_workflow_nodes parsed_input.workflow.nodes
    if invalid_nodes.length > 0 then
      (create_invalid_nodes_response guide invalid_nodes, [])
    else
      match api_client.create_workflow parsed_input.workflow parsed_input.activate with
      | .error error =>
        (schema_catch guide "Error creating workflow: " error,
         [.createCall parsed_input.workflow parsed_input.activate])
      | .ok workflow =>
        let activation_status :=
          if workflow.active then "activated" else "created (not activated)"
        ({ content := [⟨"text",
            "Successfully " ++ activation_status ++ " workflow \"" ++
              workflow.name ++ "\" (ID: " ++ workflow.id ++ ")"⟩],
           isError := none },
         [.createCall parsed_input.workflow parsed_input.activate])

/-- Handles the get_workflow tool. -/
def handle_get_workflow (cfg : String) (locale : String → String)
    (api_client : N8nApiClient) (args : GetArgs) :
    Except McpError (ToolResponse × List ApiCall) :=
  if truthy args.id = false then
    .error { code := .InvalidParams, message := "Workflow ID is required" }
  else
    let id := args.id.getD ""
    match api_client.get_workflow id with
    | .error error =>
      .ok ({ content := [⟨"text", "Error retrieving workflow: " ++ errText error⟩],
             isError := some true }, [.getCall id])
    | .ok workflow =>
      let activation_status := if workflow.active then "Active" else "Inactive"
      let node_count := workflow.nodes.length
      let trigger_nodes :=
        (workflow.nodes.filter
          (fun node => strContains (strToLower node.type) "trigger")).length
      let summary :=
        "Workflow: \"" ++ workflow.name ++ "\" (ID: " ++ id ++ ")" ++
          "\nStatus: " ++ activation_status ++
          "\nCreated: " ++ locale workflow.created_at ++
          "\nUpdated: " ++ locale workflow.updated_at ++
          "\nNodes: " ++ toString node_count ++ " (including " ++
          toString trigger_nodes ++ " trigger nodes)" ++
          "\nTags: " ++ tagsDisplay workflow.tags
      .ok ({ content := [⟨"text",
              format_output cfg summary workflow.raw args.verbosity⟩],
             isError := none }, [.getCall id])

/-- Handles the update_workflow tool. `parse` is the external
`WorkflowSchema.parse`, applied to `args.workflow`. -/
def handle_update_workflow (guide : WorkflowCompositionGuide)
    (api_client : N8nApiClient)
    (validate_workflow_nodes : List Node → List InvalidNodeReport)
    (parse : Json → Except JsError WfPayload) (args : UpdateArgs) :
    Except McpError (ToolResponse × List ApiCall) :=
  if truthy args.id = false ∨ optJsonTruthy args.workflow = false then
    .error { code := .InvalidParams,
             message := "Workflow ID and updated workflow data are required" }
  else
    let id := args.id.getD ""
    match parse (args.workflow.getD .null) with
    | .error error => .ok (schema_catch guide "Error updating workflow: " error, [])
    | .ok parsed_workflow =>
      let invalid_nodes := validate_workflow_nodes parsed_workflow.nodes
      if invalid_nodes.length > 0 then
        .ok (update_invalid_nodes_response guide invalid_nodes, [])
      else
        match api_client.update_workflow id parsed_workflow with
        | .error error =>
          .ok (schema_catch guide "Error updating workflow: " error,
               [.updateCall id parsed_workflow])
        | .ok workflow =>
          let activation_status := if workflow.active then "active" else "inactive"
          .ok ({ content := [⟨"text",
                  "Successfully updated workflow \"" ++ workflow.name ++
                    "\" (ID: " ++ id ++ ", Status: " ++ activation_status ++ ")"⟩],
                 isError := none }, [.updateCall id parsed_workflow])

/-- Handles the delete_workflow tool: it first fetches the workflow (to
show its name) and only then deletes it; one catch block covers both
awaited calls. -/
def handle_delete_workflow (api_client : N8nApiClient) (args : IdArgs) :
    Except McpError (ToolResponse × List ApiCall) :=
  if truthy args.id = false then
    .error { code := .InvalidParams, message := "Workflow ID is required" }
  else
    let id := args.id.getD ""
    match api_client.get_workflow id with
    | .error error =>
      .ok ({ content := [⟨"text", "Error deleting workflow: " ++ errText error⟩],
             isError := some true }, [.getCall id])
    | .ok workflow =>
      match api_client.delete_workflow id with
      | .error error =>
        .ok ({ content := [⟨"text", "Error deleting workflow: " ++ errText error⟩],
               isError := some true }, [.getCall id, .deleteCall id])
      | .ok _result =>
        .ok ({ content := [⟨"text",
                "Successfully deleted workflow \"" ++ workflow.name ++
                  "\" (ID: " ++ id ++ ")"⟩],
               isError := none }, [.getCall id, .deleteCall id])

/-- Fixed explanatory note of the activation handler's trigger branch. -/
def activationTriggerNote : String :=
  "Note: Only workflows with automatic trigger nodes (Schedule, Webhook, etc.) can be activated. " ++
    "Workflows with only manual triggers cannot be automatically activated."

/-- Condition `error.message && error.message.includes('trigger')`. -/
def mentionsTrigger (error : JsError) : Bool :=
  match error.message with
  | some m => (decide (m ≠ "")) && strContains m "trigger"
  | none => false

/-- Handles the activate_workflow tool. -/
def handle_activate_workflow (guide : WorkflowCompositionGuide)
    (api_client : N8nApiClient) (args : IdArgs) :
    Except McpError (ToolResponse × List ApiCall) :=
  if truthy args.id = false then
    .error { code := .InvalidParams, message := "Workflow ID is required" }
  else
    let id := args.id.getD ""
    match api_client.activate_workflow id with
    | .ok result =>
      .ok ({ content := [⟨"text",
              "Successfully activated workflow \"" ++ result.name ++
                "\" (ID: " ++ id ++ ")"⟩],
             isError := none }, [.activateCall id])
    | .error error =>
      if mentionsTrigger error then
        let core_principles := guide.core_principles
        .ok ({ content := [⟨"text",
                "Error activating workflow: " ++ error.message.getD "" ++
                  "\n\n" ++ activationTriggerNote ++ "\n\n" ++
                  "Here are some core principles for workflow composition:\n" ++
                  core_principles⟩],
               isError := some true }, [.activateCall id])
      else
        .ok ({ content := [⟨"text",
                "Error activating workflow: " ++ errText error⟩],
               isError := some true }, [.activateCall id])

/-- Handles the deactivate_workflow tool. -/
def handle_deactivate_workflow (api_client : N8nApiClient) (args : IdArgs) :
    Except McpError (ToolResponse × List ApiCall) :=
  if truthy args.id = false then
    .error { code := .InvalidParams, message := "Workflow ID is required" }
  else
    let id := args.id.getD ""
    match api_client.deactivate_workflow id with
    | .ok result =>
      .ok ({ content := [⟨"text",
              "Successfully deactivated workflow \"" ++ result.name ++
                "\" (ID: " ++ id ++ ")"⟩],
             isError := none }, [.deactivateCall id])
    | .error error =>
      .ok ({ content := [⟨"text",
              "Error deactivating workflow: " ++ errText error⟩],
             isError := some true }, [.deactivateCall id])

/-- Whether an `Except` value is a success. -/
def exceptOk {ε α : Type} : Except ε α → Bool
  | .ok _ => true
  | .error _ => false

/-- Tool response of a non-throwing handler outcome (dummy empty
response on the protocol-fault branch, which the relevant theorems
exclude by hypothesis). -/
def respOf : Except McpError (ToolResponse × List ApiCall) → ToolResponse
  | .ok p => p.1
  | .error _ => { content := [], isError := none }

/-- API calls recorded by a handler outcome. -/
def callsOf : Except McpError (ToolResponse × List ApiCall) → List ApiCall
  | .ok p => p.2
  | .error _ => []

/-- Text of the first content item of a response. -/
def firstText (r : ToolResponse) : String :=
  match r.content with
  | [] => ""
  | item :: _ => item.text

/-- The list operation completed as requested iff the awaited client
call resolved (an empty list is still a completed listing). -/
def list_success (c : N8nApiClient) : Bool := exceptOk c.list_workflows

/-- The create operation completed as requested iff the schema parse
succeeded, the node validator found nothing invalid, and the awaited
create call resolved. -/
def create_success (c : N8nApiClient)
    (validate : List Node → List InvalidNodeReport)
    (parse_result : Except JsError CreateInput) : Bool :=
  match parse_result with
  | .error _ => false
  | .ok i =>
    decide ((validate i.workflow.nodes).length = 0) &&
      exceptOk (c.create_workflow i.workflow i.activate)

/-- The get operation completed as requested iff the fetch resolved. -/
def get_success (c : N8nApiClient) (id : String) : Bool :=
  exceptOk (c.get_workflow id)

/-- The update operation completed as requested iff the schema parse
succeeded, the node validator found nothing invalid, and the awaited
update call resolved. -/
def update_success (c : N8nApiClient)
    (validate : List Node → List InvalidNodeReport)
    (parse : Json → Except JsError WfPayload) (args : UpdateArgs) : Bool :=
  match parse (args.workflow.getD .null) with
  | .error _ => false
  | .ok pw =>
    decide ((validate pw.nodes).length = 0) &&
      exceptOk (c.update_workflow (args.id.getD "") pw)

/-- The delete operation completed as requested iff both the initial
fetch and the delete resolved. -/
def delete_success (c : N8nApiClient) (id : String) : Bool :=
  exceptOk (c.get_workflow id) && exceptOk (c.delete_workflow id)

/-- The activate operation completed as requested iff the awaited call
resolved. -/
def activate_success (c : N8nApiClient) (id : String) : Bool :=
  exceptOk (c.activate_workflow id)

/-- The deactivate operation completed as requested iff the awaited
call resolved. -/
def deactivate_success (c : N8nApiClient) (id : String) : Bool :=
  exceptOk (c.deactivate_workflow id)

/-- Concrete guide used by witness instances. -/
def sampleGuide : WorkflowCompositionGuide :=
  { node_categories := "NODE-CATEGORIES"
    common_patterns := "COMMON-PATTERNS"
    core_principles := "CORE-PRINCIPLES"
    workflow_creation_process := "CREATION-PROCESS" }

/-- Concrete rejected-promise error used by witness instances. -/
def sampleErr : JsError :=
  { name := none, message := some "boom", asString := "Error: boom" }

/-- Concrete workflow used by witness instances. -/
def wfSample : Workflow :=
  { id := "17", name := "Wf", active := true, created_at := "2024-01-01"
    updated_at := "2024-01-02"
    nodes := [⟨"ScheduleTrigger"⟩, ⟨"Set"⟩], tags := none, raw := Json.null }

/-- Concrete inactive workflow used by witness instances. -/
def wfInactive : Workflow :=
  { id := "18", name := "Wf2", active := false, created_at := "2024-01-01"
    updated_at := "2024-01-02", nodes := [], tags := none, raw := Json.null }

/-- Client whose every awaited call rejects with `sampleErr`. -/
def failClient : N8nApiClient :=
  { list_workflows := .error sampleErr
    create_workflow := fun _ _ => .error sampleErr
    get_workflow := fun _ => .error sampleErr
    update_workflow := fun _ _ => .error sampleErr
    delete_workflow := fun _ => .error sampleErr
    activate_workflow := fun _ => .error sampleErr
    deactivate_workflow := fun _ => .error sampleErr }

/-- Client whose every awaited call resolves; the list call returns one
active and two inactive workflows. -/
def okClient : N8nApiClient :=
  { list_workflows := .ok (some [wfSample, wfInactive, wfInactive])
    create_workflow := fun _ _ => .ok wfSample
    get_workflow := fun _ => .ok wfSample
    update_workflow := fun _ _ => .ok wfSample
    delete_workflow := fun _ => .ok Json.null
    activate_workflow := fun _ => .ok wfSample
    deactivate_workflow := fun _ => .ok wfSample }

/-- Client whose get resolves but whose delete rejects. -/
def deleteFailClient : N8nApiClient :=
  { failClient with
    get_workflow := fun _ => .ok wfSample
    delete_workflow := fun _ => .error sampleErr }

/-- Client whose listing resolves to an empty array. -/
def emptyListClient : N8nApiClient :=
  { okClient with list_workflows := .ok (some []) }

/-- Rejection whose message mentions a missing trigger node. -/
def triggerErr : JsError :=
  { name := none, message := some "Workflow has no trigger node"
    asString := "Error: Workflow has no trigger node" }

/-- Client whose activate call rejects with the trigger error. -/
def triggerFailClient : N8nApiClient :=
  { failClient with activate_workflow := fun _ => .error triggerErr }

/-- Concrete invalid-node reports used by witness instances: one with a
suggestion, one without, and one with the falsy empty-string
suggestion. -/
def sampleReports : List InvalidNodeReport :=
  [⟨"n8n-nodes-base.htttpRequest", some "n8n-nodes-base.httpRequest"⟩,
   ⟨"totally-unknown", none⟩,
   ⟨"blank-suggestion", some ""⟩]

/-- Node validator stub reporting `sampleReports` for any input. -/
def sampleValidator : List Node → List InvalidNodeReport :=
  fun _ => sampleReports

/-- Node validator stub reporting no invalid nodes. -/
def emptyValidator : List Node → List InvalidNodeReport := fun _ => []

/-- Concrete parsed create input used by witness instances. -/
def sampleCreateInput : CreateInput :=
  ⟨⟨[⟨"n8n-nodes-base.htttpRequest"⟩]⟩, false⟩

/-- Boolean infix scanning agrees with the infix relation. -/
theorem listInfixOf_iff (pat : List Char) :
    ∀ l, listInfixOf pat l = true ↔ pat <:+: l := by
  intro l
  induction l with
  | nil => simp [listInfixOf, List.isEmpty_iff, List.infix_nil]
  | cons a rest ih =>
    simp [listInfixOf, List.infix_cons_iff, List.isPrefixOf_iff_prefix, ih]

/-- The substring test agrees with the infix relation on the data. -/
theorem strContains_eq_true_iff (s pat : String) :
    strContains s pat = true ↔ pat.data <:+: s.data :=
  listInfixOf_iff pat.data s.data

/-- The prefix test agrees with the prefix relation on the data. -/
theorem strStartsWith_eq_true_iff (s p : String) :
    strStartsWith s p = true ↔ p.data <+: s.data :=
  List.isPrefixOf_iff_prefix

/-- A string built as `pre ++ pat ++ post` contains `pat`. -/
theorem strContains_of_parts (pre pat post s : String)
    (h : s = pre ++ pat ++ post) : strContains s pat = true := by
  subst h
  simp only [strContains_eq_true_iff]
  exact ⟨pre.data, post.data, by simp [String.data_append]⟩

/-- Containment is preserved when the containing string is wrapped in
more text on either side. -/
theorem strContains_lift (a s b pat : String)
    (h : strContains s pat = true) : strContains (a ++ s ++ b) pat = true := by
  simp only [strContains_eq_true_iff] at h ⊢
  refine h.trans ?_
  simp [String.data_append]

/-- Every string contains itself. -/
theorem strContains_self (s : String) : strContains s s = true := by
  simp only [strContains_eq_true_iff]
  exact List.infix_refl s.data

/-- A string built as `p ++ rest` starts with `p`. -/
theorem strStartsWith_of_parts (p rest s : String)
    (h : s = p ++ rest) : strStartsWith s p = true := by
  subst h
  simp only [strStartsWith_eq_true_iff]
  exact ⟨rest.data, by simp [String.data_append]⟩

/-- A prefix of a string is also contained in it. -/
theorem strContains_of_startsWith (s p : String)
    (h : strStartsWith s p = true) : strContains s p = true := by
  simp only [strStartsWith_eq_true_iff] at h
  simp only [strContains_eq_true_iff]
  exact List.IsPrefix.isInfix h

/-- Each member of a joined list appears between two residual strings
of the join. -/
theorem joinSep_mem_parts (sep x : String) :
    ∀ l : List String, x ∈ l →
      ∃ pre post, joinSep sep l = pre ++ x ++ post := by
  intro l
  induction l with
  | nil => intro h; exact absurd h (List.not_mem_nil x)
  | cons y ys ih =>
    intro h
    rcases List.mem_cons.mp h with rfl | h2
    · cases ys with
      | nil => exact ⟨"", "", by simp [joinSep]⟩
      | cons z zs =>
        exact ⟨"", sep ++ joinSep sep (z :: zs), by simp [joinSep, String.append_assoc]⟩
    · have hne : ys ≠ [] := by
        intro hy; rw [hy] at h2; exact absurd h2 (List.not_mem_nil x)
      obtain ⟨pre, post, hp⟩ := ih h2
      cases ys with
      | nil => exact absurd rfl hne
      | cons z zs =>
        exact ⟨y ++ sep ++ pre, post, by
          simp only [joinSep, hp, String.append_assoc]⟩

/-- The join of mapped elements contains the image of each member. -/
theorem strContains_joinSep_map {α : Type} (sep : String) (f : α → String)
    (l : List α) (x : α) (hx : x ∈ l) :
    strContains (joinSep sep (l.map f)) (f x) = true := by
  obtain ⟨pre, post, hp⟩ :=
    joinSep_mem_parts sep (f x) (l.map f) (List.mem_map_of_mem f hx)
  exact strContains_of_parts pre (f x) post _ hp

/-- The formatter's output always extends the summary on the right. -/
theorem format_output_prefix (cfg s : String) (d : Json) (v : Option String) :
    ∃ rest, format_output cfg s d v = s ++ rest := by
  simp only [format_output]
  split
  · exact ⟨"\n\nFull details:\n" ++ Json.stringify d, String.append_assoc _ _ _⟩
  · exact ⟨"", (String.append_empty s).symm⟩

/-- The shared catch block always flags its response as an error. -/
theorem schema_catch_isError (g : WorkflowCompositionGuide) (verb : String)
    (e : JsError) : (schema_catch g verb e).isError = some true := by
  unfold schema_catch handle_validation_error
  split <;> rfl

/-- The invalid-node response of create always flags itself as an error. -/
theorem create_invalid_isError (g : WorkflowCompositionGuide)
    (l : List InvalidNodeReport) :
    (create_invalid_nodes_response g l).isError = some true := rfl

/-- The invalid-node response of update always flags itself as an error. -/
theorem update_invalid_isError (g : WorkflowCompositionGuide)
    (l : List InvalidNodeReport) :
    (update_invalid_nodes_response g l).isError = some true := rfl

/-- A string contains anything its left part contains. -/
theorem strContains_append_left (a b pat : String)
    (h : strContains a pat = true) : strContains (a ++ b) pat = true := by
  simp only [strContains_eq_true_iff] at h ⊢
  refine h.trans ?_
  have := List.prefix_append a.data b.data
  simpa [String.data_append] using List.IsPrefix.isInfix this

/-- A string contains anything its right part contains. -/
theorem strContains_append_right (a b pat : String)
    (h : strContains b pat = true) : strContains (a ++ b) pat = true := by
  simp only [strContains_eq_true_iff] at h ⊢
  refine h.trans ?_
  have := List.suffix_append a.data b.data
  simpa [String.data_append] using List.IsSuffix.isInfix this

/-- C9: calling `format_output` with an explicit empty-string verbosity
behaves exactly as if the argument were omitted — the configured
default decides the output, because the fallback tests truthiness, not
presence; in particular an empty-string verbosity does not override a
configured "full" default. -/
theorem C9_empty_verbosity_falls_back :
    ∀ (cfg S : String) (D : Json),
      format_output cfg S D (some "") = format_output cfg S D none ∧
      format_output "full" S D (some "") =
        S ++ "\n\nFull details:\n" ++ Json.stringify D := by
  intro cfg S D
  constructor
  · simp [format_output]
  · simp [format_output]

/-- C2 counterexample: with the configured default "full" and an
explicitly supplied empty-string verbosity, the claim demands the
summary unchanged (the explicit argument's effective verbosity is not
"full"), but the code falls back to the configured default and emits
the full-details block. -/
theorem C2_counterexample :
    format_output "full" "S" Json.null (some "") =
      "S" ++ "\n\nFull details:\n" ++ "null" ∧
    ¬ format_output "full" "S" Json.null (some "") = "S" := by
  constructor
  · rfl
  · decide

/-- C2 (amended): an explicitly supplied non-empty verbosity argument
overrides the configured default (the empty string falls back to the
configuration, like an omitted argument); when the effective verbosity
is "full" the result is the summary followed by the labeled
full-details block with the details as 2-space-indented JSON; for any
other effective verbosity (unrecognized values and "concise" included)
the result is the summary exactly; `format_output` is a pure function
of its inputs and the configured default. -/
theorem C2_format_output_verbosity :
    ∀ (cfg S : String) (D : Json) (V : Option String),
      (∀ v, V = some v → ¬ v = "" →
        format_output cfg S D V =
          (if v = "full" then S ++ "\n\nFull details:\n" ++ Json.stringify D
           else S)) ∧
      (V = none ∨ V = some "" →
        format_output cfg S D V =
          (if cfg = "full" then S ++ "\n\nFull details:\n" ++ Json.stringify D
           else S)) := by
  intro cfg S D V
  constructor
  · rintro v rfl hv
    simp only [format_output, if_neg hv]
  · rintro (rfl | rfl) <;> simp [format_output]

/-- C2 witness: the amended theorem evaluated at explicit "full" and
explicit "concise" verbosity arguments. -/
theorem C2_witness :
    format_output "concise" "S" Json.null (some "full") =
      (if "full" = "full"
       then "S" ++ "\n\nFull details:\n" ++ Json.stringify Json.null
       else "S") ∧
    format_output "full" "S" Json.null (some "concise") =
      (if "concise" = "full"
       then "S" ++ "\n\nFull details:\n" ++ Json.stringify Json.null
       else "S") :=
  ⟨(C2_format_output_verbosity "concise" "S" Json.null (some "full")).1
      "full" rfl (by decide),
   (C2_format_output_verbosity "full" "S" Json.null (some "concise")).1
      "concise" rfl (by decide)⟩

/-- C3: `handle_validation_error` is total and deterministic, always
returns an error response whose text is "Validation error: \x7bmessage\x7d"
followed by exactly one guidance block chosen by first-match substring
inspection in the fixed priority order nodes, connections, trigger,
default; a missing `.message` field leaves the literal fallback
"Validation error" in the output. -/
theorem C3_validation_error_guidance :
    ∀ (guide : WorkflowCompositionGuide) (e : JsError),
      (handle_validation_error guide e).isError = some true ∧
      (strContains (msgOr e "Validation error") "nodes" = true →
        firstText (handle_validation_error guide e) =
          "Validation error: " ++ msgOr e "Validation error" ++
            "\n\nHere\x27s some guidance that might help:\n\n" ++
            guide.node_categories) ∧
      (strContains (msgOr e "Validation error") "nodes" = false →
        strContains (msgOr e "Validation error") "connections" = true →
        firstText (handle_validation_error guide e) =
          "Validation error: " ++ msgOr e "Validation error" ++
            "\n\nHere\x27s some guidance that might help:\n\n" ++
            guide.common_patterns) ∧
      (strContains (msgOr e "Validation error") "nodes" = false →
        strContains (msgOr e "Validation error") "connections" = false →
        strContains (msgOr e "Validation error") "trigger" = true →
        firstText (handle_validation_error guide e) =
          "Validation error: " ++ msgOr e "Validation error" ++
            "\n\nHere\x27s some guidance that might help:\n\n" ++
            guide.core_principles) ∧
      (strContains (msgOr e "Validation error") "nodes" = false →
        strContains (msgOr e "Validation error") "connections" = false →
        strContains (msgOr e "Validation error") "trigger" = false →
        firstText (handle_validation_error guide e) =
          "Validation error: " ++ msgOr e "Validation error" ++
            "\n\nHere\x27s some guidance that might help:\n\n" ++
            guide.workflow_creation_process) ∧
      (e.message = none →
        strContains (firstText (handle_validation_error guide e))
          "Validation error" = true) := by
  intro guide e
  refine ⟨rfl, ?_, ?_, ?_, ?_, ?_⟩
  · intro h1
    simp [handle_validation_error, firstText, h1]
  · intro h1 h2
    simp [handle_validation_error, firstText, h1, h2]
  · intro h1 h2 h3
    simp [handle_validation_error, firstText, h1, h2, h3]
  · intro h1 h2 h3
    simp [handle_validation_error, firstText, h1, h2, h3]
  · intro hnone
    have hm : msgOr e "Validation error" = "Validation error" := by
      simp [msgOr, hnone]
    simp only [handle_validation_error, firstText, hm]
    apply strContains_append_left
    apply strContains_append_left
    apply strContains_append_left
    decide

/-- C3 witness: the guidance selector evaluated on a message containing
"nodes", on a message containing "connections" only, and on an error
with no message field. -/
theorem C3_witness :
    firstText (handle_validation_error sampleGuide
        ⟨some "ZodError", some "bad nodes", "E"⟩) =
      "Validation error: " ++ msgOr ⟨some "ZodError", some "bad nodes", "E"⟩ "Validation error" ++
        "\n\nHere\x27s some guidance that might help:\n\n" ++
        sampleGuide.node_categories ∧
    firstText (handle_validation_error sampleGuide
        ⟨some "ZodError", some "connections broken", "E"⟩) =
      "Validation error: " ++
        msgOr ⟨some "ZodError", some "connections broken", "E"⟩ "Validation error" ++
        "\n\nHere\x27s some guidance that might help:\n\n" ++
        sampleGuide.common_patterns ∧
    strContains (firstText (handle_validation_error sampleGuide
        ⟨none, none, "E"⟩)) "Validation error" = true :=
  ⟨(C3_validation_error_guidance sampleGuide ⟨some "ZodError", some "bad nodes", "E"⟩).2.1
      (by decide),
   (C3_validation_error_guidance sampleGuide ⟨some "ZodError", some "connections broken", "E"⟩).2.2.1
      (by decide) (by decide),
   (C3_validation_error_guidance sampleGuide ⟨none, none, "E"⟩).2.2.2.2.2 rfl⟩

/-- C1: every handler, on arguments satisfying its required-argument
precondition, settles to exactly one ToolResponse without raising, and
the response's isError field is set exactly when the operation did not
complete as requested (success paths leave it absent); when a required
argument is missing (id, or id plus workflow for update) the handler
instead raises the invalid-params protocol fault, before any API-client
call is recorded. -/
theorem C1_response_envelope_invariant :
    (∀ (cfg : String) (locale : String → String) (c : N8nApiClient)
        (args : ListArgs),
      ((handle_list_workflows cfg locale c args).1).isError =
        (if list_success c then none else some true)) ∧
    (∀ (g : WorkflowCompositionGuide) (c : N8nApiClient)
        (v : List Node → List InvalidNodeReport)
        (p : Except JsError CreateInput),
      ((handle_create_workflow g c v p).1).isError =
        (if create_success c v p then none else some true)) ∧
    (∀ (cfg : String) (locale : String → String) (c : N8nApiClient)
        (args : GetArgs),
      (truthy args.id = true →
        exceptOk (handle_get_workflow cfg locale c args) = true ∧
        (respOf (handle_get_workflow cfg locale c args)).isError =
          (if get_success c (args.id.getD "") then none else some true)) ∧
      (truthy args.id = false →
        handle_get_workflow cfg locale c args =
          .error ⟨.InvalidParams, "Workflow ID is required"⟩)) ∧
    (∀ (g : WorkflowCompositionGuide) (c : N8nApiClient)
        (v : List Node → List InvalidNodeReport)
        (parse : Json → Except JsError WfPayload) (args : UpdateArgs),
      ((truthy args.id && optJsonTruthy args.workflow) = true →
        exceptOk (handle_update_workflow g c v parse args) = true ∧
        (respOf (handle_update_workflow g c v parse args)).isError =
          (if update_success c v parse args then none else some true)) ∧
      ((truthy args.id && optJsonTruthy args.workflow) = false →
        handle_update_workflow g c v parse args =
          .error ⟨.InvalidParams,
            "Workflow ID and updated workflow data are required"⟩)) ∧
    (∀ (c : N8nApiClient) (args : IdArgs),
      (truthy args.id = true →
        exceptOk (handle_delete_workflow c args) = true ∧
        (respOf (handle_delete_workflow c args)).isError =
          (if delete_success c (args.id.getD "") then none else some true)) ∧
      (truthy args.id = false →
        handle_delete_workflow c args =
          .error ⟨.InvalidParams, "Workflow ID is required"⟩)) ∧
    (∀ (g : WorkflowCompositionGuide) (c : N8nApiClient) (args : IdArgs),
      (truthy args.id = true →
        exceptOk (handle_activate_workflow g c args) = true ∧
        (respOf (handle_activate_workflow g c args)).isError =
          (if activate_success c (args.id.getD "") then none else some true)) ∧
      (truthy args.id = false →
        handle_activate_workflow g c args =
          .error ⟨.InvalidParams, "Workflow ID is required"⟩)) ∧
    (∀ (c : N8nApiClient) (args : IdArgs),
      (truthy args.id = true →
        exceptOk (handle_deactivate_workflow c args) = true ∧
        (respOf (handle_deactivate_workflow c args)).isError =
          (if deactivate_success c (args.id.getD "") then none else some true)) ∧
      (truthy args.id = false →
        handle_deactivate_workflow c args =
          .error ⟨.InvalidParams, "Workflow ID is required"⟩)) := by
  refine ⟨?_, ?_, ?_, ?_, ?_, ?_, ?_⟩
  · intro cfg locale c args
    unfold handle_list_workflows list_success
    cases hc : c.list_workflows with
    | error e => simp [exceptOk]
    | ok wopt =>
      cases wopt with
      | none => simp [exceptOk]
      | some wfs =>
        by_cases h : wfs.length = 0 <;> simp [h, exceptOk]
  · intro g c v p
    unfold handle_create_workflow create_success
    cases p with
    | error e => simp [schema_catch_isError]
    | ok i =>
      by_cases h : (v i.workflow.nodes).length = 0
      · have h' : ¬ (v i.workflow.nodes).length > 0 := by omega
        cases hc : c.create_workflow i.workflow i.activate with
        | error e => simp [h, h', hc, exceptOk, schema_catch_isError]
        | ok wf => simp [h, h', hc, exceptOk]
      · have h' : (v i.workflow.nodes).length > 0 := Nat.pos_of_ne_zero h
        simp [h, h', create_invalid_isError]
  · intro cfg locale c args
    constructor
    · intro h
      unfold handle_get_workflow get_success
      cases hc : c.get_workflow (args.id.getD "") with
      | error e => simp [h, hc, exceptOk, respOf]
      | ok wf => simp [h, hc, exceptOk, respOf]
    · intro h
      unfold handle_get_workflow
      simp [h]
  · intro g c v parse args
    constructor
    · intro h
      rw [Bool.and_eq_true] at h
      unfold handle_update_workflow update_success
      cases hp : parse (args.workflow.getD .null) with
      | error e =>
        simp [h.1, h.2, hp, exceptOk, respOf, schema_catch_isError]
      | ok pw =>
        by_cases hv : (v pw.nodes).length = 0
        · have hv' : ¬ (v pw.nodes).length > 0 := by omega
          cases hc : c.update_workflow (args.id.getD "") pw with
          | error e =>
            simp [h.1, h.2, hp, hv, hv', hc, exceptOk, respOf,
              schema_catch_isError]
          | ok wf =>
            simp [h.1, h.2, hp, hv, hv', hc, exceptOk, respOf]
        · have hv' : (v pw.nodes).length > 0 := Nat.pos_of_ne_zero hv
          simp [h.1, h.2, hp, hv, hv', exceptOk, respOf,
            update_invalid_isError]
    · intro h
      unfold handle_update_workflow
      rcases Bool.and_eq_false_iff.mp h with h1 | h1 <;> simp [h1]
  · intro c args
    constructor
    · intro h
      unfold handle_delete_workflow delete_success
      cases hg : c.get_workflow (args.id.getD "") with
      | error e => simp [h, hg, exceptOk, respOf]
      | ok wf =>
        cases hd : c.delete_workflow (args.id.getD "") with
        | error e => simp [h, hg, hd, exceptOk, respOf]
        | ok r => simp [h, hg, hd, exceptOk, respOf]
    · intro h
      unfold handle_delete_workflow
      simp [h]
  · intro g c args
    constructor
    · intro h
      unfold handle_activate_workflow activate_success
      cases hc : c.activate_workflow (args.id.getD "") with
      | error e =>
        by_cases ht : mentionsTrigger e = true <;>
          simp [h, hc, ht, exceptOk, respOf]
      | ok wf => simp [h, hc, exceptOk, respOf]
    · intro h
      unfold handle_activate_workflow
      simp [h]
  · intro c args
    constructor
    · intro h
      unfold handle_deactivate_workflow deactivate_success
      cases hc : c.deactivate_workflow (args.id.getD "") with
      | error e => simp [h, hc, exceptOk, respOf]
      | ok wf => simp [h, hc, exceptOk, respOf]
    · intro h
      unfold handle_deactivate_workflow
      simp [h]

/-- C1 witness: the invariant evaluated at a client whose fetch
rejects (get with a present id settles to an error envelope) and at a
missing id (delete raises the invalid-params fault). -/
theorem C1_witness :
    (exceptOk (handle_get_workflow "concise" (fun s => s) failClient
        ⟨some "9", none⟩) = true ∧
      (respOf (handle_get_workflow "concise" (fun s => s) failClient
        ⟨some "9", none⟩)).isError =
        (if get_success failClient "9" then none else some true)) ∧
    handle_delete_workflow okClient ⟨none⟩ =
      .error ⟨.InvalidParams, "Workflow ID is required"⟩ :=
  ⟨(C1_response_envelope_invariant.2.2.1 "concise" (fun s => s) failClient
      ⟨some "9", none⟩).1 (by decide),
   (C1_response_envelope_invariant.2.2.2.2.1 okClient ⟨none⟩).2 rfl⟩

/-- A string that starts with a part containing a pattern contains that
pattern. -/
theorem strContains_of_startsWith_contains (s p pat : String)
    (h1 : strStartsWith s p = true) (h2 : strContains p pat = true) :
    strContains s pat = true := by
  simp only [strStartsWith_eq_true_iff, strContains_eq_true_iff] at h1 h2 ⊢
  exact h2.trans (List.IsPrefix.isInfix h1)

/-- C4: delete fetches the workflow first and only then calls delete;
a failing fetch means the delete call is never attempted and yields the
catch-all text with the fetch error's message; a failing delete yields
the same catch-all envelope after both calls. -/
theorem C4_delete_fetch_then_delete :
    ∀ (c : N8nApiClient) (args : IdArgs) (e : JsError),
      truthy args.id = true →
      (c.get_workflow (args.id.getD "") = .error e →
        handle_delete_workflow c args =
          .ok ({ content := [⟨"text",
                  "Error deleting workflow: " ++ errText e⟩],
                 isError := some true }, [.getCall (args.id.getD "")]) ∧
        ApiCall.deleteCall (args.id.getD "") ∉
          callsOf (handle_delete_workflow c args)) ∧
      (∀ wf, c.get_workflow (args.id.getD "") = .ok wf →
        c.delete_workflow (args.id.getD "") = .error e →
        handle_delete_workflow c args =
          .ok ({ content := [⟨"text",
                  "Error deleting workflow: " ++ errText e⟩],
                 isError := some true },
               [.getCall (args.id.getD ""), .deleteCall (args.id.getD "")])) ∧
      (∀ wf r, c.get_workflow (args.id.getD "") = .ok wf →
        c.delete_workflow (args.id.getD "") = .ok r →
        callsOf (handle_delete_workflow c args) =
          [.getCall (args.id.getD ""), .deleteCall (args.id.getD "")]) := by
  intro c args e h
  refine ⟨?_, ?_, ?_⟩
  · intro hg
    constructor
    · unfold handle_delete_workflow
      simp [h, hg]
    · unfold handle_delete_workflow callsOf
      simp [h, hg]
  · intro wf hg hd
    unfold handle_delete_workflow
    simp [h, hg, hd]
  · intro wf r hg hd
    unfold handle_delete_workflow callsOf
    simp [h, hg, hd]

/-- C4 witness: the ordering property evaluated at a client whose fetch
rejects and at one whose fetch resolves but whose delete rejects. -/
theorem C4_witness :
    (handle_delete_workflow failClient ⟨some "9"⟩ =
      .ok ({ content := [⟨"text",
              "Error deleting workflow: " ++ errText sampleErr⟩],
             isError := some true }, [.getCall "9"]) ∧
      ApiCall.deleteCall "9" ∉
        callsOf (handle_delete_workflow failClient ⟨some "9"⟩)) ∧
    handle_delete_workflow deleteFailClient ⟨some "9"⟩ =
      .ok ({ content := [⟨"text",
              "Error deleting workflow: " ++ errText sampleErr⟩],
             isError := some true }, [.getCall "9", .deleteCall "9"]) :=
  ⟨(C4_delete_fetch_then_delete failClient ⟨some "9"⟩ sampleErr (by decide)).1
      rfl,
   (C4_delete_fetch_then_delete deleteFailClient ⟨some "9"⟩ sampleErr
      (by decide)).2.1 wfSample rfl rfl⟩

/-- C5: when activation fails with a message containing "trigger", the
response carries the original message, the fixed note that only
automatic-trigger workflows can be activated, and the core-principles
guidance, flagged as an error; any other failure yields the generic
catch-all text. -/
theorem C5_activate_trigger_guidance :
    ∀ (g : WorkflowCompositionGuide) (c : N8nApiClient) (args : IdArgs)
      (e : JsError) (m : String),
      truthy args.id = true →
      c.activate_workflow (args.id.getD "") = .error e →
      (e.message = some m → strContains m "trigger" = true →
        respOf (handle_activate_workflow g c args) =
          { content := [⟨"text",
              "Error activating workflow: " ++ m ++ "\n\n" ++
                activationTriggerNote ++ "\n\n" ++
                "Here are some core principles for workflow composition:\n" ++
                g.core_principles⟩],
            isError := some true } ∧
        strContains (firstText (respOf (handle_activate_workflow g c args)))
          m = true ∧
        strContains (firstText (respOf (handle_activate_workflow g c args)))
          activationTriggerNote = true ∧
        strContains (firstText (respOf (handle_activate_workflow g c args)))
          g.core_principles = true) ∧
      (mentionsTrigger e = false →
        respOf (handle_activate_workflow g c args) =
          { content := [⟨"text",
              "Error activating workflow: " ++ errText e⟩],
            isError := some true }) := by
  intro g c args e m h hc
  constructor
  · intro hmsg htrig
    have hmne : ¬ m = "" := by
      intro hm
      rw [hm] at htrig
      exact absurd htrig (by decide)
    have hmt : mentionsTrigger e = true := by
      simp [mentionsTrigger, hmsg, hmne, htrig]
    have hresp : respOf (handle_activate_workflow g c args) =
        { content := [⟨"text",
            "Error activating workflow: " ++ m ++ "\n\n" ++
              activationTriggerNote ++ "\n\n" ++
              "Here are some core principles for workflow composition:\n" ++
              g.core_principles⟩],
          isError := some true } := by
      unfold handle_activate_workflow respOf
      simp [h, hc, hmt, hmsg]
    refine ⟨hresp, ?_, ?_, ?_⟩
    · rw [hresp]
      apply strContains_of_parts "Error activating workflow: " m
        ("\n\n" ++ activationTriggerNote ++ "\n\n" ++
          "Here are some core principles for workflow composition:\n" ++
          g.core_principles)
      simp [firstText, String.append_assoc]
    · rw [hresp]
      apply strContains_of_parts
        ("Error activating workflow: " ++ m ++ "\n\n") activationTriggerNote
        ("\n\n" ++ "Here are some core principles for workflow composition:\n" ++
          g.core_principles)
      simp [firstText, String.append_assoc]
    · rw [hresp]
      apply strContains_of_parts
        ("Error activating workflow: " ++ m ++ "\n\n" ++
          activationTriggerNote ++ "\n\n" ++
          "Here are some core principles for workflow composition:\n")
        g.core_principles ""
      simp [firstText, String.append_assoc]
  · intro hmt
    unfold handle_activate_workflow respOf
    simp [h, hc, hmt]

/-- C5 witness: activation failing with "Workflow has no trigger node"
yields the specialized response; the generic rejection yields the
catch-all text. -/
theorem C5_witness :
    (respOf (handle_activate_workflow sampleGuide triggerFailClient
        ⟨some "9"⟩) =
      { content := [⟨"text",
          "Error activating workflow: " ++ "Workflow has no trigger node" ++
            "\n\n" ++ activationTriggerNote ++ "\n\n" ++
            "Here are some core principles for workflow composition:\n" ++
            sampleGuide.core_principles⟩],
        isError := some true } ∧
      strContains (firstText (respOf (handle_activate_workflow sampleGuide
          triggerFailClient ⟨some "9"⟩))) "Workflow has no trigger node" = true ∧
      strContains (firstText (respOf (handle_activate_workflow sampleGuide
          triggerFailClient ⟨some "9"⟩))) activationTriggerNote = true ∧
      strContains (firstText (respOf (handle_activate_workflow sampleGuide
          triggerFailClient ⟨some "9"⟩))) sampleGuide.core_principles = true) ∧
    respOf (handle_activate_workflow sampleGuide failClient ⟨some "9"⟩) =
      { content := [⟨"text",
          "Error activating workflow: " ++ errText sampleErr⟩],
        isError := some true } :=
  ⟨(C5_activate_trigger_guidance sampleGuide triggerFailClient ⟨some "9"⟩
      triggerErr "Workflow has no trigger node" (by decide) rfl).1 rfl
      (by decide),
   (C5_activate_trigger_guidance sampleGuide failClient ⟨some "9"⟩
      sampleErr "boom" (by decide) rfl).2 (by decide)⟩

/-- C6: create with a schema-valid payload whose node validation
reports a non-empty list returns an error response itemizing every
reported node in the validator's order, each entry with a (truthy)
suggestion carrying the node type and the "Did you mean" phrase, each
entry without one (absent or empty, both falsy in the source's
conditional) carrying "No similar nodes found.", followed by the
node-category guidance; no API call is made. -/
theorem C6_create_invalid_nodes_itemized :
    ∀ (g : WorkflowCompositionGuide) (c : N8nApiClient)
      (v : List Node → List InvalidNodeReport) (i : CreateInput),
      ¬ v i.workflow.nodes = [] →
      handle_create_workflow g c v (.ok i) =
        ({ content := [⟨"text",
            "Workflow contains invalid node types:\n" ++
              joinSep "\n" ((v i.workflow.nodes).map invalidNodeLine) ++
              "\n\nPlease correct these node types before creating the workflow.\n\n" ++
              "Here are the available node categories for reference:\n" ++
              g.node_categories⟩],
           isError := some true }, []) ∧
      (∀ r ∈ v i.workflow.nodes,
        strContains (firstText (handle_create_workflow g c v (.ok i)).1)
          (invalidNodeLine r) = true ∧
        (∀ s, r.suggestion = some s → ¬ s = "" →
          strContains (invalidNodeLine r) r.node_type = true ∧
          strContains (invalidNodeLine r)
            ("Did you mean \x27" ++ s ++ "\x27?") = true) ∧
        (r.suggestion = none ∨ r.suggestion = some "" →
          strContains (invalidNodeLine r) "No similar nodes found." = true)) := by
  intro g c v i hne
  have hlen : (v i.workflow.nodes).length > 0 := by
    cases hv : v i.workflow.nodes with
    | nil => exact absurd hv hne
    | cons a l => simp
  have hmain : handle_create_workflow g c v (.ok i) =
      ({ content := [⟨"text",
          "Workflow contains invalid node types:\n" ++
            joinSep "\n" ((v i.workflow.nodes).map invalidNodeLine) ++
            "\n\nPlease correct these node types before creating the workflow.\n\n" ++
            "Here are the available node categories for reference:\n" ++
            g.node_categories⟩],
         isError := some true }, []) := by
    unfold handle_create_workflow create_invalid_nodes_response
    simp [hlen]
  refine ⟨hmain, ?_⟩
  intro r hr
  refine ⟨?_, ?_, ?_⟩
  · rw [hmain]
    have hjoin := strContains_joinSep_map "\n" invalidNodeLine
      (v i.workflow.nodes) r hr
    apply strContains_append_left
    apply strContains_append_left
    apply strContains_append_left
    exact strContains_append_right _ _ _ hjoin
  · intro s hs hne
    constructor
    · unfold invalidNodeLine
      rw [hs]
      apply strContains_append_left
      apply strContains_append_left
      exact strContains_append_right _ _ _ (strContains_self r.node_type)
    · unfold invalidNodeLine
      rw [hs]
      show strContains
        ("- \x27" ++ r.node_type ++ "\x27: Not a valid n8n node. " ++
          (if s = "" then "No similar nodes found."
           else "Did you mean \x27" ++ s ++ "\x27?"))
        ("Did you mean \x27" ++ s ++ "\x27?") = true
      rw [if_neg hne]
      exact strContains_append_right _ _ _
        (strContains_self ("Did you mean \x27" ++ s ++ "\x27?"))
  · intro hs
    rcases hs with hs | hs
    · unfold invalidNodeLine
      rw [hs]
      exact strContains_append_right _ _ _
        (strContains_self "No similar nodes found.")
    · unfold invalidNodeLine
      rw [hs]
      exact strContains_append_right _ _ _
        (strContains_self "No similar nodes found.")

/-- C6 witness: the itemization evaluated at a validator reporting one
node with a suggestion, one without, and one with the falsy
empty-string suggestion. -/
theorem C6_witness :
    handle_create_workflow sampleGuide okClient sampleValidator
        (.ok sampleCreateInput) =
      ({ content := [⟨"text",
          "Workflow contains invalid node types:\n" ++
            joinSep "\n" ((sampleValidator sampleCreateInput.workflow.nodes).map
              invalidNodeLine) ++
            "\n\nPlease correct these node types before creating the workflow.\n\n" ++
            "Here are the available node categories for reference:\n" ++
            sampleGuide.node_categories⟩],
         isError := some true }, []) ∧
    strContains
      (invalidNodeLine ⟨"n8n-nodes-base.htttpRequest",
        some "n8n-nodes-base.httpRequest"⟩)
      ("Did you mean \x27" ++ "n8n-nodes-base.httpRequest" ++ "\x27?") = true ∧
    strContains (invalidNodeLine ⟨"totally-unknown", none⟩)
      "No similar nodes found." = true ∧
    strContains (invalidNodeLine ⟨"blank-suggestion", some ""⟩)
      "No similar nodes found." = true :=
  ⟨(C6_create_invalid_nodes_itemized sampleGuide okClient sampleValidator
      sampleCreateInput (by decide)).1,
   ((C6_create_invalid_nodes_itemized sampleGuide okClient sampleValidator
      sampleCreateInput (by decide)).2
      ⟨"n8n-nodes-base.htttpRequest", some "n8n-nodes-base.httpRequest"⟩
      (by decide)).2.1 "n8n-nodes-base.httpRequest" rfl (by decide) |>.2,
   ((C6_create_invalid_nodes_itemized sampleGuide okClient sampleValidator
      sampleCreateInput (by decide)).2
      ⟨"totally-unknown", none⟩ (by decide)).2.2 (Or.inl rfl),
   ((C6_create_invalid_nodes_itemized sampleGuide okClient sampleValidator
      sampleCreateInput (by decide)).2
      ⟨"blank-suggestion", some ""⟩ (by decide)).2.2 (Or.inr rfl)⟩

/-- The list handler's text on a non-empty listing is the formatter
applied to the summary line followed by the per-workflow blocks. -/
theorem handle_list_nonempty_text
    (cfg : String) (locale : String → String) (c : N8nApiClient)
    (args : ListArgs) (wfs : List Workflow)
    (hc : c.list_workflows = .ok (some wfs)) (hlen : ¬ wfs.length = 0) :
    firstText (handle_list_workflows cfg locale c args).1 =
      format_output cfg
        ("Found " ++ toString wfs.length ++ " workflow" ++
          (if wfs.length ≠ 1 then "s" else "") ++
          " (" ++ toString (wfs.filter (fun wf => wf.active)).length ++
          " active, " ++
          toString (wfs.length - (wfs.filter (fun wf => wf.active)).length) ++
          " inactive):\n\n" ++
          joinSep "\n\n" (wfs.enum.map (fun p => workflowListEntry locale p.1 p.2)))
        (Json.arr (wfs.map (fun wf => wf.raw))) args.verbosity := by
  unfold handle_list_workflows firstText
  rw [hc]
  simp [hlen]

/-- C7: listing an empty array returns exactly the no-workflows
response with no isError field; a non-empty listing's text starts with
the count summary, singular exactly for one workflow, with the active
and inactive tallies; three workflows of which one is active report
"3 workflows (1 active, 2 inactive)". -/
theorem C7_list_workflows_report :
    ∀ (cfg : String) (locale : String → String) (c : N8nApiClient)
      (args : ListArgs),
      (c.list_workflows = .ok (some []) →
        handle_list_workflows cfg locale c args =
          ({ content := [⟨"text", "No workflows found."⟩], isError := none },
           [.listCall])) ∧
      (∀ wfs, c.list_workflows = .ok (some wfs) → ¬ wfs = [] →
        strStartsWith (firstText (handle_list_workflows cfg locale c args).1)
          ("Found " ++ toString wfs.length ++ " workflow" ++
            (if wfs.length ≠ 1 then "s" else "") ++
            " (" ++ toString (wfs.filter (fun wf => wf.active)).length ++
            " active, " ++
            toString (wfs.length - (wfs.filter (fun wf => wf.active)).length) ++
            " inactive):") = true) ∧
      (c.list_workflows = .ok (some [wfSample, wfInactive, wfInactive]) →
        strContains (firstText (handle_list_workflows cfg locale c args).1)
          "3 workflows (1 active, 2 inactive)" = true) := by
  intro cfg locale c args
  have part2 : ∀ wfs, c.list_workflows = .ok (some wfs) → ¬ wfs = [] →
      strStartsWith (firstText (handle_list_workflows cfg locale c args).1)
        ("Found " ++ toString wfs.length ++ " workflow" ++
          (if wfs.length ≠ 1 then "s" else "") ++
          " (" ++ toString (wfs.filter (fun wf => wf.active)).length ++
          " active, " ++
          toString (wfs.length - (wfs.filter (fun wf => wf.active)).length) ++
          " inactive):") = true := by
    intro wfs hc hne
    have hlen : ¬ wfs.length = 0 := by
      simpa [List.length_eq_zero] using hne
    rw [handle_list_nonempty_text cfg locale c args wfs hc hlen]
    obtain ⟨rest, hfo⟩ := format_output_prefix cfg
      ("Found " ++ toString wfs.length ++ " workflow" ++
        (if wfs.length ≠ 1 then "s" else "") ++
        " (" ++ toString (wfs.filter (fun wf => wf.active)).length ++
        " active, " ++
        toString (wfs.length - (wfs.filter (fun wf => wf.active)).length) ++
        " inactive):\n\n" ++
        joinSep "\n\n" (wfs.enum.map (fun p => workflowListEntry locale p.1 p.2)))
      (Json.arr (wfs.map (fun wf => wf.raw))) args.verbosity
    rw [hfo]
    apply strStartsWith_of_parts _
      ("\n\n" ++
        joinSep "\n\n" (wfs.enum.map (fun p => workflowListEntry locale p.1 p.2)) ++
        rest)
    rw [show (" inactive):\n\n" : String) = " inactive):" ++ "\n\n" from rfl]
    simp only [String.append_assoc]
  refine ⟨?_, part2, ?_⟩
  · intro hc
    unfold handle_list_workflows
    rw [hc]
    rfl
  · intro hc
    have hP := part2 [wfSample, wfInactive, wfInactive] hc (by simp)
    exact strContains_of_startsWith_contains _ _ _ hP (by decide)

/-- C7 witness: the listing report evaluated on an empty listing and on
the three-workflow listing with one active workflow. -/
theorem C7_witness :
    handle_list_workflows "concise" (fun s => s) emptyListClient ⟨none⟩ =
      ({ content := [⟨"text", "No workflows found."⟩], isError := none },
       [.listCall]) ∧
    strContains
      (firstText (handle_list_workflows "concise" (fun s => s) okClient ⟨none⟩).1)
      "3 workflows (1 active, 2 inactive)" = true :=
  ⟨(C7_list_workflows_report "concise" (fun s => s) emptyListClient ⟨none⟩).1 rfl,
   (C7_list_workflows_report "concise" (fun s => s) okClient ⟨none⟩).2.2 rfl⟩

/-- C8: on a successful fetch, the reported trigger count is the
number of nodes whose case-folded type contains "trigger"; for nodes
ScheduleTrigger and Set the summary reports
"Nodes: 2 (including 1 trigger nodes)". -/
theorem C8_get_trigger_node_count :
    ∀ (cfg : String) (locale : String → String) (c : N8nApiClient)
      (args : GetArgs) (wf : Workflow),
      truthy args.id = true →
      c.get_workflow (args.id.getD "") = .ok wf →
      strContains (firstText (respOf (handle_get_workflow cfg locale c args)))
        ("Nodes: " ++ toString wf.nodes.length ++ " (including " ++
          toString ((wf.nodes.filter
            (fun node => strContains (strToLower node.type) "trigger")).length) ++
          " trigger nodes)") = true ∧
      (wf.nodes = [⟨"ScheduleTrigger"⟩, ⟨"Set"⟩] →
        strContains (firstText (respOf (handle_get_workflow cfg locale c args)))
          "Nodes: 2 (including 1 trigger nodes)" = true) := by
  intro cfg locale c args wf h hc
  have htext : firstText (respOf (handle_get_workflow cfg locale c args)) =
      format_output cfg
        ("Workflow: \"" ++ wf.name ++ "\" (ID: " ++ args.id.getD "" ++ ")" ++
          "\nStatus: " ++ (if wf.active then "Active" else "Inactive") ++
          "\nCreated: " ++ locale wf.created_at ++
          "\nUpdated: " ++ locale wf.updated_at ++
          "\nNodes: " ++ toString wf.nodes.length ++ " (including " ++
          toString ((wf.nodes.filter
            (fun node => strContains (strToLower node.type) "trigger")).length) ++
          " trigger nodes)" ++
          "\nTags: " ++ tagsDisplay wf.tags)
        wf.raw args.verbosity := by
    unfold handle_get_workflow respOf firstText
    simp [h, hc]
  have part1 : strContains (firstText (respOf (handle_get_workflow cfg locale c args)))
      ("Nodes: " ++ toString wf.nodes.length ++ " (including " ++
        toString ((wf.nodes.filter
          (fun node => strContains (strToLower node.type) "trigger")).length) ++
        " trigger nodes)") = true := by
    rw [htext]
    obtain ⟨rest, hfo⟩ := format_output_prefix cfg
      ("Workflow: \"" ++ wf.name ++ "\" (ID: " ++ args.id.getD "" ++ ")" ++
        "\nStatus: " ++ (if wf.active then "Active" else "Inactive") ++
        "\nCreated: " ++ locale wf.created_at ++
        "\nUpdated: " ++ locale wf.updated_at ++
        "\nNodes: " ++ toString wf.nodes.length ++ " (including " ++
        toString ((wf.nodes.filter
          (fun node => strContains (strToLower node.type) "trigger")).length) ++
        " trigger nodes)" ++
        "\nTags: " ++ tagsDisplay wf.tags)
      wf.raw args.verbosity
    rw [hfo]
    apply strContains_of_parts
      ("Workflow: \"" ++ wf.name ++ "\" (ID: " ++ args.id.getD "" ++ ")" ++
        "\nStatus: " ++ (if wf.active then "Active" else "Inactive") ++
        "\nCreated: " ++ locale wf.created_at ++
        "\nUpdated: " ++ locale wf.updated_at ++ "\n")
      _
      ("\nTags: " ++ tagsDisplay wf.tags ++ rest)
    rw [show ("\nNodes: " : String) = "\n" ++ "Nodes: " from rfl]
    simp only [String.append_assoc]
  refine ⟨part1, ?_⟩
  intro hn
  have h1 := part1
  rw [hn] at h1
  have heq : ("Nodes: " ++
      toString (List.length [(⟨"ScheduleTrigger"⟩ : Node), ⟨"Set"⟩]) ++
      " (including " ++
      toString ((List.filter
        (fun node => strContains (strToLower node.type) "trigger")
        [(⟨"ScheduleTrigger"⟩ : Node), ⟨"Set"⟩]).length) ++
      " trigger nodes)") = "Nodes: 2 (including 1 trigger nodes)" := by decide
  rw [heq] at h1
  exact h1

/-- C8 witness: the trigger count evaluated at the sample workflow with
nodes ScheduleTrigger and Set. -/
theorem C8_witness :
    strContains (firstText (respOf (handle_get_workflow "concise"
        (fun s => s) okClient ⟨some "17", none⟩)))
      "Nodes: 2 (including 1 trigger nodes)" = true :=
  (C8_get_trigger_node_count "concise" (fun s => s) okClient ⟨some "17", none⟩
    wfSample (by decide) rfl).2 rfl

/-- C10: whenever pre-call validation fails in create or update — the
schema parse throws, or the node validator reports a non-empty list —
the handler records no API-client call at all, so the remote create
(respectively update) mutation is never attempted. -/
theorem C10_no_mutation_on_validation_failure :
    (∀ (g : WorkflowCompositionGuide) (c : N8nApiClient)
        (v : List Node → List InvalidNodeReport) (e : JsError),
      (handle_create_workflow g c v (.error e)).2 = []) ∧
    (∀ (g : WorkflowCompositionGuide) (c : N8nApiClient)
        (v : List Node → List InvalidNodeReport) (i : CreateInput),
      ¬ v i.workflow.nodes = [] →
      (handle_create_workflow g c v (.ok i)).2 = []) ∧
    (∀ (g : WorkflowCompositionGuide) (c : N8nApiClient)
        (v : List Node → List InvalidNodeReport)
        (parse : Json → Except JsError WfPayload) (args : UpdateArgs)
        (e : JsError),
      parse (args.workflow.getD .null) = .error e →
      callsOf (handle_update_workflow g c v parse args) = []) ∧
    (∀ (g : WorkflowCompositionGuide) (c : N8nApiClient)
        (v : List Node → List InvalidNodeReport)
        (parse : Json → Except JsError WfPayload) (args : UpdateArgs)
        (pw : WfPayload),
      parse (args.workflow.getD .null) = .ok pw → ¬ v pw.nodes = [] →
      callsOf (handle_update_workflow g c v parse args) = []) := by
  refine ⟨?_, ?_, ?_, ?_⟩
  · intro g c v e
    rfl
  · intro g c v i hne
    have hlen : (v i.workflow.nodes).length > 0 := by
      cases hv : v i.workflow.nodes with
      | nil => exact absurd hv hne
      | cons a l => simp
    unfold handle_create_workflow
    simp [hlen]
  · intro g c v parse args e hp
    unfold handle_update_workflow callsOf
    by_cases hg : truthy args.id = false ∨ optJsonTruthy args.workflow = false
    · simp [hg]
    · simp [hg, hp]
  · intro g c v parse args pw hp hne
    have hlen : (v pw.nodes).length > 0 := by
      cases hv : v pw.nodes with
      | nil => exact absurd hv hne
      | cons a l => simp
    unfold handle_update_workflow callsOf
    by_cases hg : truthy args.id = false ∨ optJsonTruthy args.workflow = false
    · simp [hg]
    · simp [hg, hp, hlen]

/-- C10 witness: the frame property evaluated at a failing schema parse
and at a validator reporting invalid nodes. -/
theorem C10_witness :
    (handle_create_workflow sampleGuide okClient sampleValidator
      (.error sampleErr)).2 = [] ∧
    (handle_create_workflow sampleGuide okClient sampleValidator
      (.ok sampleCreateInput)).2 = [] ∧
    callsOf (handle_update_workflow sampleGuide okClient sampleValidator
      (fun _ => .error sampleErr) ⟨some "9", some (.obj [])⟩) = [] ∧
    callsOf (handle_update_workflow sampleGuide okClient sampleValidator
      (fun _ => .ok ⟨[⟨"x"⟩]⟩) ⟨some "9", some (.obj [])⟩) = [] :=
  ⟨C10_no_mutation_on_validation_failure.1 sampleGuide okClient
      sampleValidator sampleErr,
   C10_no_mutation_on_validation_failure.2.1 sampleGuide okClient
      sampleValidator sampleCreateInput (by decide),
   C10_no_mutation_on_validation_failure.2.2.1 sampleGuide okClient
      sampleValidator (fun _ => .error sampleErr) ⟨some "9", some (.obj [])⟩
      sampleErr rfl,
   C10_no_mutation_on_validation_failure.2.2.2 sampleGuide okClient
      sampleValidator (fun _ => .ok ⟨[⟨"x"⟩]⟩) ⟨some "9", some (.obj [])⟩
      ⟨[⟨"x"⟩]⟩ rfl (by decide)⟩

end WorkflowTools
